import Mathlib

/-!
Verification development for the code-automation VS Code extension
(src/extension.ts and src/CodeChatView.ts).

The two TypeScript source files are shallowly embedded below.  Stateful and
effectful code (HTTP requests, subprocess execution, UI calls) is modelled by
explicit effect traces: each run of a flow is a pure function from an
environment that records the responses of the external services to the list
of observable calls the flow makes, together with its resolution value.
-/

namespace CodeAutomation

/-- Metadata of one Pinecone search match, as read by generateSummary
(extension.ts lines 196-202: file_path, type, name, content). -/
structure MatchMeta where
  file_path : String
  type : String
  name : String
  content : String
deriving DecidableEq

/-- One role-tagged message of a chat-completion request
(extension.ts lines 220-230). -/
structure ChatMessage where
  role : String
  content : String
deriving DecidableEq

/-- Observable external calls made by the extension.  UI calls
(input box, information message, error message, opened document) are
recorded alongside the network requests so that the claims about
"no network call is made" and "this message is shown" are both statements
about one trace. -/
inductive Effect where
  /-- vscode.window.showInputBox (extension.ts line 134). -/
  | showInputBox
  /-- POST to the embeddings endpoint (extension.ts lines 155-168). -/
  | embedRequest (input : String) (model : String)
  /-- Pinecone index query (extension.ts lines 178-183).  The numeric
  components of the query vector are never inspected by the extension, only
  passed through from the embedding response, so they are opaque integers
  here. -/
  | searchRequest (indexName : String) (vector : List Int) (topK : Nat)
      (includeMetadata : Bool)
  /-- POST to the chat-completions endpoint (extension.ts lines 210-235).
  The temperature is the decimal literal of the request body recorded in
  tenths (the source value 0.7 is recorded as 7). -/
  | chatRequest (model : String) (messages : List ChatMessage)
      (temperatureTenths : Nat) (maxTokens : Nat)
  /-- vscode.window.showInformationMessage. -/
  | showInfo (msg : String)
  /-- vscode.window.showErrorMessage. -/
  | showError (msg : String)
  /-- vscode.workspace.openTextDocument + showTextDocument
  (extension.ts lines 245-253). -/
  | openDoc (content : String) (language : String)
deriving DecidableEq

/-- Body of the embeddings response as consumed by the code: either a
service-reported error object with a message, or a vector
(embeddingData.data[0].embedding, extension.ts lines 170-180). -/
structure EmbeddingData where
  error : Option String
  embedding : List Int
deriving DecidableEq

/-- Body of the chat-completions response as consumed by the code: either a
service-reported error object with a message, or the generated content
(chatData.choices[0].message.content, extension.ts lines 237-242). -/
structure ChatData where
  error : Option String
  content : String
deriving DecidableEq

/-- Responses of the external collaborators during one run of
generateSummary.  userQuery is the result of the input box (none models a
dismissed box, i.e. undefined); matches models searchResponse.matches with
the JS fallback to the empty list already applied (line 185). -/
structure SummaryEnv where
  userQuery : Option String
  embeddingData : EmbeddingData
  searchMatches : List MatchMeta
  chatData : ChatData
deriving DecidableEq

/-- Embedding model name sent in the embeddings request (line 165). -/
def embedModel : String := "text-embedding-3-small"

/-- Chat model name sent in the completion request (line 219). -/
def chatModel : String := "gpt-4-turbo-preview"

/-- The Pinecone index name used for the similarity search:
pinecone.Index("code-embeddings") at extension.ts line 178.  It is a string
literal in the source; nothing about the workspace path enters it. -/
def indexNameUsed : String := "code-embeddings"

/-- Rendering of one match inside the context block (extension.ts
lines 197-203, a template literal that begins with a newline). -/
def renderMatch (m : MatchMeta) : String :=
  "\nFile: " ++ m.file_path ++ "\nType: " ++ m.type ++ "\nName: " ++ m.name
    ++ "\nContent:\n" ++ m.content ++ "\n-------------------"

/-- The per-match sections of the context block, in source order
(matches.map at extension.ts line 195). -/
def contextSections (ms : List MatchMeta) : List String :=
  ms.map renderMatch

/-- The full context block: sections joined with a blank line
(join at extension.ts line 205). -/
def contextContent (ms : List MatchMeta) : String :=
  String.intercalate "\n\n" (contextSections ms)

/-- System prompt of the summary completion request (lines 222-224). -/
def summarySystemPrompt : String :=
  "You are a helpful assistant that provides clear, concise summaries of code. Focus on explaining the main functionality and purpose of the code elements."

/-- User prompt of the summary completion request (line 228). -/
def summaryUserPrompt (query ctx : String) : String :=
  "Please provide a summary addressing this query: \"" ++ query
    ++ "\"\n\nHere are the relevant code elements:\n\n" ++ ctx

/-- The message list of the summary completion request (lines 220-230). -/
def chatMessagesFor (query : String) (ms : List MatchMeta) : List ChatMessage :=
  [⟨"system", summarySystemPrompt⟩,
   ⟨"user", summaryUserPrompt query (contextContent ms)⟩]

/-- Characters removed by the JavaScript String.prototype.trim (WhiteSpace
and LineTerminator code points; the common subset is modelled). -/
def isJsWhitespace (c : Char) : Bool :=
  c == ' ' || c == '\t' || c == '\n' || c == '\r' || c == '\x0b'
    || c == '\x0c' || c == '\u00A0' || c == '\uFEFF'

/-- Model of the JavaScript String.prototype.trim: drop whitespace from the
front, then from the back. -/
def jsTrim (s : String) : String :=
  ⟨((s.data.dropWhile isJsWhitespace).reverse.dropWhile isJsWhitespace).reverse⟩

/-- Content of the document opened with the generated summary
(extension.ts line 246). -/
def summaryDoc (query summary ctx : String) : String :=
  "# Code Summary\n\nQuery: " ++ query ++ "\n\n" ++ summary
    ++ "\n\n## Referenced Code Elements\n\n" ++ ctx

/-- The body of the withProgress callback inside generateSummary
(extension.ts lines 151-254): embed the query, search the Pinecone index,
return early with an information message when there are no matches,
otherwise request a completion and open the summary document.  A thrown
error (the two service-reported error checks) is the Except.error case; the
callback itself always resolves undefined, so the ok case carries Unit. -/
def summaryFlow (env : SummaryEnv) (query : String) :
    List Effect × Except String Unit :=
  match env.embeddingData.error with
  | some msg => ([.embedRequest query embedModel], .error msg)
  | none =>
    if env.searchMatches.isEmpty then
      ([.embedRequest query embedModel,
        .searchRequest indexNameUsed env.embeddingData.embedding 10 true,
        .showInfo "No relevant code found for your query."], .ok ())
    else
      match env.chatData.error with
      | some msg =>
        ([.embedRequest query embedModel,
          .searchRequest indexNameUsed env.embeddingData.embedding 10 true,
          .chatRequest chatModel (chatMessagesFor query env.searchMatches)
            7 1000], .error msg)
      | none =>
        ([.embedRequest query embedModel,
          .searchRequest indexNameUsed env.embeddingData.embedding 10 true,
          .chatRequest chatModel (chatMessagesFor query env.searchMatches)
            7 1000,
          .openDoc
            (summaryDoc query (jsTrim env.chatData.content)
              (contextContent env.searchMatches)) "markdown"], .ok ())

/-- generateSummary (extension.ts lines 132-262): prompt for a query with an
input box, return undefined when the box is dismissed or empty, run the
flow, and show any thrown error with the prefix of line 258.  The function
never produces a value: it resolves undefined on every path (the summary is
only displayed in a document), hence the second component is Option String
and always none. -/
def generateSummary (env : SummaryEnv) : List Effect × Option String :=
  match env.userQuery with
  | none => ([.showInputBox], none)
  | some q =>
    if q = "" then ([.showInputBox], none)
    else
      (Effect.showInputBox :: (summaryFlow env q).1 ++
        (match (summaryFlow env q).2 with
         | .ok _ => []
         | .error m => [.showError ("Error generating summary: " ++ m)]),
       none)

/-- analyzeCodebase (extension.ts lines 68-130), as the value of the
execFile callback: err models a non-null error argument (non-zero exit or
spawn failure); parse is an oracle for JSON.parse on the trimmed standard
output (the parsed array elements are opaque here since the extension only
logs them).  On error it rejects with stderr, falling back to a fixed
message when stderr is empty (the JS || on line 99); on unparseable output
it rejects with the fixed message of line 118 (the raw output is only
logged to the console, not placed in the message). -/
def analyzeCodebase (parse : String → Option (List String)) (err : Bool)
    (stdout stderr : String) : Except String (List String) :=
  if err then
    .error (if stderr = "" then "Unknown error occurred." else stderr)
  else
    match parse (jsTrim stdout) with
    | some r => .ok r
    | none => .error "Invalid JSON output from analyzer.py"

/-- True exactly on the Except.error case. -/
def isErrorResult {α : Type} (r : Except String α) : Bool :=
  match r with
  | .error _ => true
  | .ok _ => false

/-- Environment of the whole host: the summary-flow responses plus the
analyzer subprocess outcome and the workspace-folder check. -/
structure HostEnv where
  summaryEnv : SummaryEnv
  workspaceOpen : Bool
  analyzerErr : Bool
  analyzerStdout : String
  analyzerStderr : String
  analyzerParse : String → Option (List String)

/-- The command identifiers registered by activate (extension.ts lines
24-25 and 52-53): exactly analyzeCodebase and generateSummary. -/
def registeredCommands : List String :=
  ["extension.analyzeCodebase", "extension.generateSummary"]

/-- Message of the rejection produced by the host when executeCommand is
called with an unregistered command identifier (models the VS Code
runtime). -/
def commandNotFound (cmd : String) : String :=
  "command not found: " ++ cmd

/-- Effects of the extension.analyzeCodebase command callback (extension.ts
lines 26-48): check for a workspace folder, run the analyzer, and show the
success or error message (the then/catch of lines 31-42). -/
def analyzeCommandEffects (env : HostEnv) : List Effect :=
  if env.workspaceOpen then
    match analyzeCodebase env.analyzerParse env.analyzerErr
        env.analyzerStdout env.analyzerStderr with
    | .ok _ => [.showInfo "Codebase analyzed successfully!"]
    | .error m => [.showError ("Error analyzing codebase: " ++ m)]
  else
    [.showError "No workspace folder is open. Please open a folder to analyze."]

/-- Model of vscode.commands.executeCommand against the commands registered
in activate.  Both registered callbacks are declared without parameters, so
the argument is ignored; both run their work in the background and return
undefined (the analyze callback resolves the promise with then/catch, the
summary callback fires generateSummary and only attaches a catch), hence
the resolved value is none for both.  An unregistered identifier rejects. -/
def executeCommand (env : HostEnv) (cmd : String) (_arg : Option String) :
    List Effect × Except String (Option String) :=
  if cmd = "extension.analyzeCodebase" then
    (analyzeCommandEffects env, .ok none)
  else if cmd = "extension.generateSummary" then
    ((generateSummary env.summaryEnv).1, .ok none)
  else
    ([], .error (commandNotFound cmd))

/-- Messages the webview posts to the extension host
(CodeChatView.ts lines 27, 49, 72). -/
inductive Outbound where
  | analyze
  | summarize
  | query (q : String)

/-- Messages the extension host posts back to the webview
(CodeChatView.ts postMessage calls). -/
inductive Inbound where
  | status (message : String)
  | response (message : String) (isMarkdown : Bool)
  | error (message : String)
deriving DecidableEq

/-- The JS truthiness fallback v || d for an optional string, where both
undefined and the empty string are falsy. -/
def jsOrElse (v : Option String) (d : String) : String :=
  match v with
  | none => d
  | some s => if s = "" then d else s

/-- The onDidReceiveMessage handler of CodeChatView.resolveWebviewView
(CodeChatView.ts lines 26-94).  mk models the external marked markdown
renderer.  Each case posts a status message, awaits executeCommand, and
posts either a response or an error; the summarize and query cases throw
their fixed not-generated error when the command resolves with a falsy
value (lines 54-56 and 76-78). -/
def handleMessage (env : HostEnv) (mk : String → String) :
    Outbound → List Effect × List Inbound
  | .analyze =>
    if env.workspaceOpen then
      match executeCommand env "extension.analyzeCodebase" none with
      | (es, .ok v) =>
        (es, [.status "Analyzing codebase...",
              .response (jsOrElse v "Codebase analyzed successfully!") false])
      | (es, .error m) =>
        (es, [.status "Analyzing codebase...", .error m])
    else ([], [.status "Analyzing codebase..."])
  | .summarize =>
    match executeCommand env "extension.generateSummary"
        (some "Give me a summary of the codebase") with
    | (es, .ok none) =>
      (es, [.status "Generating summary...",
            .error "No summary generated. Make sure to analyze the codebase first."])
    | (es, .ok (some s)) =>
      if s = "" then
        (es, [.status "Generating summary...",
              .error "No summary generated. Make sure to analyze the codebase first."])
      else
        (es, [.status "Generating summary...", .response (mk s) true])
    | (es, .error m) =>
      (es, [.status "Generating summary...", .error m])
  | .query q =>
    match executeCommand env "extension.askCodebase" (some q) with
    | (es, .ok none) =>
      (es, [.status "Generating response...",
            .error "No response generated. Make sure to analyze the codebase first."])
    | (es, .ok (some s)) =>
      if s = "" then
        (es, [.status "Generating response...",
              .error "No response generated. Make sure to analyze the codebase first."])
      else
        (es, [.status "Generating response...", .response (mk s) true])
    | (es, .error m) =>
      (es, [.status "Generating response...", .error m])

/-- True on the three effects that are network or service calls
(embedding, vector search, chat completion). -/
def isNetworkEffect : Effect → Bool
  | .embedRequest _ _ => true
  | .searchRequest _ _ _ _ => true
  | .chatRequest _ _ _ _ => true
  | _ => false

/-- Temperature (in tenths) and max_tokens of a chat-completion effect,
if any. -/
def chatParams : Effect → Option (Nat × Nat)
  | .chatRequest _ _ t k => some (t, k)
  | _ => none

/-! Definitions written from the specification text, for comparison with
the code (refinement checks).  They follow the words of the spec, not the
source. -/

/-- File extension of a path as the summary grouping key described by the
spec: the suffix starting at the last dot, defaulting to ".txt" when the
path has no dot (spec section 4.7, written from the spec, not the code). -/
def specLastDotSuffix : List Char → Option (List Char)
  | [] => none
  | c :: cs =>
    match specLastDotSuffix cs with
    | some s => some s
    | none => if c = '.' then some (c :: cs) else none

/-- Spec-side extension of a file path (default ".txt" when absent). -/
def specExtensionOf (p : String) : String :=
  match specLastDotSuffix p.data with
  | some s => ⟨s⟩
  | none => ".txt"

/-- First-seen deduplication, preserving the order in which elements are
first encountered (the group order the spec prescribes). -/
def specFirstSeen (l : List String) : List String :=
  l.foldl (fun acc x => if x ∈ acc then acc else acc ++ [x]) []

/-- Spec-side extension groups of a match list: the distinct extensions in
first-seen order; the spec says the summary policy emits one labeled
section per extension group in this order. -/
def specExtensionGroups (ms : List MatchMeta) : List String :=
  specFirstSeen (ms.map (fun m => specExtensionOf m.file_path))

/-! Concrete environments used by the witnesses and counterexamples. -/

/-- A one-component query vector returned by the mocked embedding
service. -/
def vec1 : List Int := [1]

/-- A Python match named a (the example of the summary-policy claim). -/
def mA : MatchMeta := ⟨"a.py", "function", "a", "print(1)"⟩

/-- A TypeScript match named b. -/
def mB : MatchMeta := ⟨"b.ts", "function", "b", "console.log(2)"⟩

/-- A second Python match named c. -/
def mC : MatchMeta := ⟨"c.py", "function", "c", "print(3)"⟩

/-- The three-match example of the summary-policy claim. -/
def exMatches : List MatchMeta := [mA, mB, mC]

/-- A run in which every service succeeds and one match is found. -/
def envOk : SummaryEnv :=
  ⟨some "explain auth", ⟨none, vec1⟩, [mA], ⟨none, "  summary text  "⟩⟩

/-- A run in which the search returns zero matches. -/
def envNoMatch : SummaryEnv := ⟨some "q", ⟨none, vec1⟩, [], ⟨none, ""⟩⟩

/-- A run in which the embedding service reports the error message X. -/
def envEmbedErr : SummaryEnv := ⟨some "q2", ⟨some "X", []⟩, [], ⟨none, ""⟩⟩

/-- A JSON.parse oracle that recognises the empty array and rejects
everything else; it is correct on the concrete inputs it is applied to. -/
def parseEmptyArr : String → Option (List String) :=
  fun s => if s = "[]" then some [] else none

/-- A host environment wrapping envOk with a successful analyzer run. -/
def hostOk : HostEnv := ⟨envOk, true, false, "[]", "", parseEmptyArr⟩


/-! Helper lemmas about the embedded flows (shared; not claim theorems). -/

/-- Every branch of the withProgress body issues the embedding request
first. -/
theorem summaryFlow_shape (env : SummaryEnv) (q : String) :
    ∃ rest r, summaryFlow env q = (Effect.embedRequest q embedModel :: rest, r) := by
  unfold summaryFlow
  split
  · exact ⟨_, _, rfl⟩
  · split
    · exact ⟨_, _, rfl⟩
    · split
      · exact ⟨_, _, rfl⟩
      · exact ⟨_, _, rfl⟩

/-- Value of the flow when the embedding service reports an error. -/
theorem summaryFlow_embedErr (env : SummaryEnv) (q X : String)
    (h : env.embeddingData.error = some X) :
    summaryFlow env q = ([.embedRequest q embedModel], .error X) := by
  unfold summaryFlow; rw [h]

/-- Value of the flow when the search returns no matches. -/
theorem summaryFlow_noMatch (env : SummaryEnv) (q : String)
    (he : env.embeddingData.error = none) (hm : env.searchMatches = []) :
    summaryFlow env q = ([.embedRequest q embedModel,
      .searchRequest indexNameUsed env.embeddingData.embedding 10 true,
      .showInfo "No relevant code found for your query."], .ok ()) := by
  unfold summaryFlow; rw [he, hm]; rfl

/-- Value of the flow when the chat service reports an error. -/
theorem summaryFlow_chatErr (env : SummaryEnv) (q X : String) (a : MatchMeta)
    (t : List MatchMeta) (he : env.embeddingData.error = none)
    (hm : env.searchMatches = a :: t) (hc : env.chatData.error = some X) :
    summaryFlow env q = ([.embedRequest q embedModel,
      .searchRequest indexNameUsed env.embeddingData.embedding 10 true,
      .chatRequest chatModel (chatMessagesFor q env.searchMatches) 7 1000],
      .error X) := by
  unfold summaryFlow; rw [he, hc, hm]; rfl

/-- Value of the flow on the fully successful path. -/
theorem summaryFlow_ok (env : SummaryEnv) (q : String) (a : MatchMeta)
    (t : List MatchMeta) (he : env.embeddingData.error = none)
    (hm : env.searchMatches = a :: t) (hc : env.chatData.error = none) :
    summaryFlow env q = ([.embedRequest q embedModel,
      .searchRequest indexNameUsed env.embeddingData.embedding 10 true,
      .chatRequest chatModel (chatMessagesFor q env.searchMatches) 7 1000,
      .openDoc (summaryDoc q (jsTrim env.chatData.content)
        (contextContent env.searchMatches)) "markdown"], .ok ()) := by
  unfold summaryFlow; rw [he, hc, hm]; rfl

/-- Value of generateSummary when the input box is dismissed. -/
theorem generateSummary_none (env : SummaryEnv) (hu : env.userQuery = none) :
    generateSummary env = ([.showInputBox], none) := by
  unfold generateSummary; rw [hu]

/-- Value of generateSummary when the input box yields the empty string. -/
theorem generateSummary_empty (env : SummaryEnv) (q : String)
    (hu : env.userQuery = some q) (hq : q = "") :
    generateSummary env = ([.showInputBox], none) := by
  unfold generateSummary; rw [hu, hq]; rfl

/-- Unfolding of generateSummary once a nonempty query has been entered. -/
theorem generateSummary_eq (env : SummaryEnv) (q : String)
    (hq : env.userQuery = some q) (hq0 : q ≠ "") :
    generateSummary env =
      (Effect.showInputBox :: (summaryFlow env q).1 ++
        (match (summaryFlow env q).2 with
         | .ok _ => []
         | .error m => [.showError ("Error generating summary: " ++ m)]),
       none) := by
  unfold generateSummary; rw [hq]; simp [hq0]

/-- Any effect of the withProgress body is one of its five possible
calls, with the index name, vector, temperature and token budget fixed. -/
theorem mem_summaryFlow (env : SummaryEnv) (q : String) (e : Effect)
    (h : e ∈ (summaryFlow env q).1) :
    e = .embedRequest q embedModel ∨
    e = .searchRequest indexNameUsed env.embeddingData.embedding 10 true ∨
    e = .chatRequest chatModel (chatMessagesFor q env.searchMatches) 7 1000 ∨
    e = .openDoc (summaryDoc q (jsTrim env.chatData.content)
      (contextContent env.searchMatches)) "markdown" ∨
    e = .showInfo "No relevant code found for your query." := by
  unfold summaryFlow at h
  split at h
  · simp only [List.mem_singleton] at h; tauto
  · split at h
    · simp only [List.mem_cons, List.not_mem_nil, or_false] at h; tauto
    · split at h
      · simp only [List.mem_cons, List.not_mem_nil, or_false] at h; tauto
      · simp only [List.mem_cons, List.not_mem_nil, or_false] at h; tauto

/-- Any effect of a run of generateSummary is the input box, an effect of
the flow for the entered query, or the error message of the catch. -/
theorem mem_generateSummary (env : SummaryEnv) (e : Effect)
    (h : e ∈ (generateSummary env).1) :
    e = .showInputBox ∨
    (∃ q, env.userQuery = some q ∧ q ≠ "" ∧ e ∈ (summaryFlow env q).1) ∨
    (∃ m, e = .showError ("Error generating summary: " ++ m)) := by
  cases hu : env.userQuery with
  | none =>
    rw [generateSummary_none env hu] at h
    simp only [List.mem_singleton] at h; tauto
  | some q =>
    by_cases hq : q = ""
    · rw [generateSummary_empty env q hu hq] at h
      simp only [List.mem_singleton] at h; tauto
    · rw [generateSummary_eq env q hu hq] at h
      rcases hr : (summaryFlow env q).2 with m | u <;> rw [hr] at h
      · simp only [List.mem_cons, List.mem_append, List.not_mem_nil,
          or_false] at h
        rcases h with (h | h) | h
        · exact Or.inl h
        · exact Or.inr (Or.inl ⟨q, rfl, hq, h⟩)
        · exact Or.inr (Or.inr ⟨m, h⟩)
      · simp only [List.mem_cons, List.mem_append, List.not_mem_nil,
          or_false] at h
        rcases h with h | h
        · exact Or.inl h
        · exact Or.inr (Or.inl ⟨q, rfl, hq, h⟩)


/-- A list with its leading whitespace removed splits into the trimmed core
followed by the trailing whitespace. -/
theorem dropWhile_reverse_decomp (l : List Char) :
    l.dropWhile isJsWhitespace
      = ((l.dropWhile isJsWhitespace).reverse.dropWhile isJsWhitespace).reverse
        ++ ((l.dropWhile isJsWhitespace).reverse.takeWhile isJsWhitespace).reverse := by
  conv_lhs => rw [← List.reverse_reverse (l.dropWhile isJsWhitespace),
    ← List.takeWhile_append_dropWhile (p := isJsWhitespace)
      (l := (l.dropWhile isJsWhitespace).reverse)]
  rw [List.reverse_append]

/-- jsTrim removes exactly a whitespace block from each end: the input is
whitespace, then the trimmed text, then whitespace. -/
theorem jsTrim_decomposition (s : String) :
    ∃ pre post : List Char,
      s.data = pre ++ (jsTrim s).data ++ post ∧
      pre.all isJsWhitespace = true ∧ post.all isJsWhitespace = true := by
  refine ⟨s.data.takeWhile isJsWhitespace,
    ((s.data.dropWhile isJsWhitespace).reverse.takeWhile isJsWhitespace).reverse,
    ?_, List.all_takeWhile, by rw [List.all_reverse]; exact List.all_takeWhile⟩
  conv_lhs => rw [← List.takeWhile_append_dropWhile (p := isJsWhitespace)
    (l := s.data)]
  rw [List.append_assoc]
  congr 1
  exact dropWhile_reverse_decomp s.data

/-- The first character of a jsTrim result is never whitespace. -/
theorem jsTrim_head (s : String) (c : Char)
    (h : (jsTrim s).data.head? = some c) : isJsWhitespace c = false := by
  have hm := dropWhile_reverse_decomp s.data
  have hj : ((s.data.dropWhile isJsWhitespace).reverse.dropWhile
      isJsWhitespace).reverse = (jsTrim s).data := rfl
  have hh : (s.data.dropWhile isJsWhitespace).head? = some c := by
    rw [hm, List.head?_append, hj, h]; rfl
  have hd := List.head?_dropWhile_not isJsWhitespace s.data
  rw [hh] at hd
  exact hd

/-- The last character of a jsTrim result is never whitespace. -/
theorem jsTrim_getLast (s : String) (c : Char)
    (h : (jsTrim s).data.getLast? = some c) : isJsWhitespace c = false := by
  have hl : (jsTrim s).data.getLast?
      = ((s.data.dropWhile isJsWhitespace).reverse.dropWhile isJsWhitespace).head? := by
    exact List.getLast?_reverse _
  rw [hl] at h
  have hd := List.head?_dropWhile_not isJsWhitespace
    (s.data.dropWhile isJsWhitespace).reverse
  rw [h] at hd
  exact hd


/-! Claim theorems. -/

/-- C1, counterexample: the code keeps no workspace index registry at all,
so this summarize request runs in a state where no index id has been
recorded; it nevertheless issues the embedding network request and the
flow resolves successfully instead of failing with a NotAnalyzedError. -/
theorem c1_counterexample :
    Effect.embedRequest "q" embedModel ∈ (generateSummary envNoMatch).1 ∧
    (summaryFlow envNoMatch "q").2 = .ok () :=
  ⟨by decide, rfl⟩

/-- C1, amended: generateSummary performs no fail-fast index check: in
every run in which the user enters a nonempty query, the first two effects
are the input box and the embedding network request, so a network call is
always issued before anything can fail; no NotAnalyzedError exists in the
code (the ask flow fails for the unrelated reason that its command is
never registered). -/
theorem c1_no_fail_fast (env : SummaryEnv) (q : String)
    (hq : env.userQuery = some q) (hq0 : q ≠ "") :
    (generateSummary env).1.take 2
      = [Effect.showInputBox, Effect.embedRequest q embedModel] := by
  obtain ⟨rest, r, hr⟩ := summaryFlow_shape env q
  rw [generateSummary_eq env q hq hq0, hr]; rfl

/-- C1, witness: the amended theorem applied to the zero-match run. -/
theorem c1_witness :
    envNoMatch.userQuery = some "q" ∧ "q" ≠ "" ∧
    (generateSummary envNoMatch).1.take 2
      = [Effect.showInputBox, Effect.embedRequest "q" embedModel] :=
  ⟨rfl, by decide, c1_no_fail_fast envNoMatch "q" rfl (by decide)⟩

/-- C2, counterexample: the index identifier the search request uses is the
string literal "code-embeddings"; it does not begin with "code-index-",
so it is not "code-index-" followed by eight hex characters of any hash,
and it does not depend on the workspace path. -/
theorem c2_counterexample :
    Effect.searchRequest indexNameUsed vec1 10 true
        ∈ (generateSummary envNoMatch).1 ∧
    indexNameUsed = "code-embeddings" ∧
    indexNameUsed.data.take 11 ≠ "code-index-".data :=
  ⟨by decide, rfl, by decide⟩

/-- C2, amended: every vector-search request issued by generateSummary
addresses the constant index "code-embeddings" (with the embedding vector
of the current run, topK 10 and metadata included); the identifier is
independent of any workspace path, hence trivially deterministic across
calls and restarts. -/
theorem c2_constant_index (env : SummaryEnv) (ix : String) (v : List Int)
    (k : Nat) (im : Bool)
    (h : Effect.searchRequest ix v k im ∈ (generateSummary env).1) :
    ix = "code-embeddings" ∧ v = env.embeddingData.embedding ∧
    k = 10 ∧ im = true := by
  rcases mem_generateSummary env _ h with h1 | ⟨q, hq, hq0, h2⟩ | ⟨m, h3⟩
  · simp at h1
  · rcases mem_summaryFlow env q _ h2 with e1 | e2 | e3 | e4 | e5
    · simp at e1
    · simp only [Effect.searchRequest.injEq] at e2
      exact ⟨e2.1, e2.2.1, e2.2.2⟩
    · simp at e3
    · simp at e4
    · simp at e5
  · simp at h3

/-- C2, witness: the amended theorem applied to the zero-match run. -/
theorem c2_witness :
    (Effect.searchRequest indexNameUsed vec1 10 true
        ∈ (generateSummary envNoMatch).1) ∧
    indexNameUsed = "code-embeddings" :=
  ⟨by decide,
   (c2_constant_index envNoMatch indexNameUsed vec1 10 true (by decide)).1⟩

/-- C3, counterexample: when the search returns zero matches the run shows
an information message and resolves successfully; the flow outcome is ok,
not a NoMatchesError failure (the full trace also shows that no completion
request is issued). -/
theorem c3_counterexample :
    (generateSummary envNoMatch).1 =
      [.showInputBox, .embedRequest "q" embedModel,
       .searchRequest indexNameUsed vec1 10 true,
       .showInfo "No relevant code found for your query."] ∧
    (summaryFlow envNoMatch "q").2 = .ok () ∧
    (generateSummary envNoMatch).2 = none :=
  ⟨by decide, rfl, rfl⟩

/-- C3, amended: when the vector search returns an empty match list the
flow returns normally after showing the message
"No relevant code found for your query."; no chat-completion request is
issued, and no error is raised. -/
theorem c3_no_matches_info (env : SummaryEnv) (q : String)
    (hq : env.userQuery = some q) (hq0 : q ≠ "")
    (he : env.embeddingData.error = none) (hm : env.searchMatches = []) :
    (summaryFlow env q).2 = .ok () ∧
    Effect.showInfo "No relevant code found for your query."
        ∈ (generateSummary env).1 ∧
    (∀ e ∈ (generateSummary env).1, chatParams e = none) ∧
    (generateSummary env).2 = none := by
  have hf := summaryFlow_noMatch env q he hm
  have hg := generateSummary_eq env q hq hq0
  refine ⟨by rw [hf], ?_, ?_, by rw [hg]⟩
  · rw [hg, hf]; simp
  · intro e he'
    rw [hg, hf] at he'
    simp only [List.mem_cons, List.mem_append, List.not_mem_nil,
      or_false] at he'
    rcases he' with h | h | h | h <;> subst h <;> rfl

/-- C3, witness: the amended theorem applied to the zero-match run. -/
theorem c3_witness :
    envNoMatch.searchMatches = [] ∧
    (summaryFlow envNoMatch "q").2 = .ok () ∧
    Effect.showInfo "No relevant code found for your query."
        ∈ (generateSummary envNoMatch).1 ∧
    (∀ e ∈ (generateSummary envNoMatch).1, chatParams e = none) ∧
    (generateSummary envNoMatch).2 = none := by
  have h := c3_no_matches_info envNoMatch "q" rfl (by decide) rfl rfl
  exact ⟨rfl, h.1, h.2.1, h.2.2.1, h.2.2.2⟩

/-- C4, counterexample: on the three matches of the claim the spec grouping
would emit two extension groups in first-seen order [.py, .ts], but the
code emits three sections, one per match in original order with the .ts
match between the two .py matches: no grouping by extension happens. -/
theorem c4_counterexample :
    specExtensionGroups exMatches = [".py", ".ts"] ∧
    (contextSections exMatches).length = 3 ∧
    (contextSections exMatches).length ≠ (specExtensionGroups exMatches).length ∧
    contextSections exMatches = [renderMatch mA, renderMatch mB, renderMatch mC] :=
  ⟨by decide, by decide, by decide, rfl⟩

/-- C4, amended: the context assembly performs no grouping at all: it emits
exactly one section per match, in the original match order, the i-th
section being the rendering (file path, type, name, content) of the i-th
match, whose full source text it contains. -/
theorem c4_one_section_per_match (ms : List MatchMeta) (i : Nat) :
    (contextSections ms).length = ms.length ∧
    (contextSections ms)[i]? = (ms[i]?).map renderMatch ∧
    (∀ m : MatchMeta, ms[i]? = some m →
      m.content.data <:+: (renderMatch m).data) := by
  refine ⟨by simp [contextSections], by simp [contextSections], ?_⟩
  intro m _
  refine ⟨("\nFile: " ++ m.file_path ++ "\nType: " ++ m.type ++ "\nName: "
    ++ m.name ++ "\nContent:\n").data, "\n-------------------".data, ?_⟩
  simp [renderMatch, List.append_assoc]

/-- C4, witness: the amended theorem applied to the three-match example. -/
theorem c4_witness :
    (contextSections exMatches).length = exMatches.length ∧
    (contextSections exMatches)[0]? = (exMatches[0]?).map renderMatch ∧
    mA.content.data <:+: (renderMatch mA).data :=
  ⟨(c4_one_section_per_match exMatches 0).1,
   (c4_one_section_per_match exMatches 0).2.1,
   (c4_one_section_per_match exMatches 0).2.2 mA rfl⟩

/-- C5, counterexample: on unparseable standard output the rejection
message is the fixed string "Invalid JSON output from analyzer.py", which
does not include the raw output; and on a failed run with empty standard
error the message is "Unknown error occurred.", not the (empty) standard
error surfaced verbatim. -/
theorem c5_counterexample :
    analyzeCodebase parseEmptyArr false "oops" ""
      = .error "Invalid JSON output from analyzer.py" ∧
    ¬ ("oops".data <:+: "Invalid JSON output from analyzer.py".data) ∧
    analyzeCodebase parseEmptyArr true "" "" = .error "Unknown error occurred." ∧
    "Unknown error occurred." ≠ "" :=
  ⟨rfl, by decide, rfl, by decide⟩

/-- C5, amended: analyzeCodebase fails exactly when the subprocess reports
an error or its trimmed standard output is not parseable as JSON; on a
reported error the message is the standard-error text when it is nonempty
and "Unknown error occurred." otherwise; on a parse failure the message is
the fixed string "Invalid JSON output from analyzer.py" (the raw output is
only logged, not included); otherwise it succeeds with the parsed array. -/
theorem c5_failure_conditions (parse : String → Option (List String))
    (err : Bool) (o e : String) :
    (isErrorResult (analyzeCodebase parse err o e) = true
        ↔ (err = true ∨ parse (jsTrim o) = none)) ∧
    (err = true → analyzeCodebase parse err o e
        = .error (if e = "" then "Unknown error occurred." else e)) ∧
    (err = false → parse (jsTrim o) = none → analyzeCodebase parse err o e
        = .error "Invalid JSON output from analyzer.py") ∧
    (err = false → ∀ r, parse (jsTrim o) = some r →
        analyzeCodebase parse err o e = .ok r) := by
  unfold analyzeCodebase
  cases err with
  | true => simp [isErrorResult]
  | false =>
    cases hp : parse (jsTrim o) with
    | none => simp [isErrorResult]
    | some r => simp [isErrorResult]

/-- C5, witness: the amended theorem applied on both failure branches and
the success branch. -/
theorem c5_witness :
    analyzeCodebase parseEmptyArr true "x" "boom" = .error "boom" ∧
    analyzeCodebase parseEmptyArr false "oops2" ""
      = .error "Invalid JSON output from analyzer.py" ∧
    analyzeCodebase parseEmptyArr false "[]" "" = .ok [] := by
  refine ⟨?_, ?_, ?_⟩
  · have h := (c5_failure_conditions parseEmptyArr true "x" "boom").2.1 rfl
    rwa [if_neg (by decide)] at h
  · exact (c5_failure_conditions parseEmptyArr false "oops2" "").2.2.1 rfl
      (by decide)
  · exact (c5_failure_conditions parseEmptyArr false "[]" "").2.2.2 rfl []
      (by decide)


/-- C6, counterexample: the single chat-completion request of a successful
run carries temperature 0.7 (recorded as 7 tenths) and max_tokens 1000,
not temperature 0.3 (3 tenths) and 1500 tokens as claimed. -/
theorem c6_counterexample :
    (generateSummary envOk).1.filterMap chatParams = [(7, 1000)] ∧
    ((7 : Nat), (1000 : Nat)) ≠ (3, 1500) :=
  ⟨by decide, by decide⟩

/-- C6, amended: every chat-completion request issued by the summarize flow
is sent to the model gpt-4-turbo-preview with temperature 0.7 (7 tenths)
and a maximum of 1000 tokens. -/
theorem c6_sampling_params (env : SummaryEnv) (mdl : String)
    (msgs : List ChatMessage) (t k : Nat)
    (h : Effect.chatRequest mdl msgs t k ∈ (generateSummary env).1) :
    mdl = chatModel ∧ t = 7 ∧ k = 1000 := by
  rcases mem_generateSummary env _ h with h1 | ⟨q, hq, hq0, h2⟩ | ⟨m, h3⟩
  · simp at h1
  · rcases mem_summaryFlow env q _ h2 with e1 | e2 | e3 | e4 | e5
    · simp at e1
    · simp at e2
    · simp only [Effect.chatRequest.injEq] at e3
      exact ⟨e3.1, e3.2.2.1, e3.2.2.2⟩
    · simp at e4
    · simp at e5
  · simp at h3

set_option maxRecDepth 10000 in
/-- C6, witness: the amended theorem applied to the chat request of the
successful run. -/
theorem c6_witness :
    Effect.chatRequest chatModel (chatMessagesFor "explain auth" [mA]) 7 1000
        ∈ (generateSummary envOk).1 ∧
    (chatModel = chatModel ∧ 7 = 7 ∧ 1000 = 1000) :=
  ⟨by decide,
   c6_sampling_params envOk chatModel (chatMessagesFor "explain auth" [mA])
     7 1000 (by decide)⟩

/-- C7: a service-reported error message X from the embedding or the
chat-completion response propagates unchanged: the flow outcome is exactly
Except.error X, and the message shown at the UI boundary contains X
verbatim after the fixed prefix. -/
theorem c7_error_propagation (env : SummaryEnv) (q X : String)
    (hq : env.userQuery = some q) (hq0 : q ≠ "")
    (h : env.embeddingData.error = some X ∨
      (env.embeddingData.error = none ∧ env.searchMatches ≠ [] ∧
       env.chatData.error = some X)) :
    (summaryFlow env q).2 = .error X ∧
    Effect.showError ("Error generating summary: " ++ X)
        ∈ (generateSummary env).1 := by
  have hflow : (summaryFlow env q).2 = .error X := by
    rcases h with he | ⟨he, hm, hc⟩
    · rw [summaryFlow_embedErr env q X he]
    · obtain ⟨a, t, hL⟩ := List.exists_cons_of_ne_nil hm
      rw [summaryFlow_chatErr env q X a t he hL hc]
  refine ⟨hflow, ?_⟩
  rw [generateSummary_eq env q hq hq0, hflow]
  simp

/-- C7, witness: the theorem applied to a run whose embedding response
reports the error message X. -/
theorem c7_witness :
    envEmbedErr.embeddingData.error = some "X" ∧
    (summaryFlow envEmbedErr "q2").2 = .error "X" ∧
    Effect.showError ("Error generating summary: " ++ "X")
        ∈ (generateSummary envEmbedErr).1 := by
  have h := c7_error_propagation envEmbedErr "q2" "X" rfl (by decide)
    (Or.inl rfl)
  exact ⟨rfl, h.1, h.2⟩

/-- C8: on the successful path the document shown to the user embeds
jsTrim of the content returned by the chat service, and jsTrim is exactly
removal of leading and trailing whitespace: the content splits as
whitespace, the trimmed text, whitespace, and the trimmed text neither
starts nor ends with a whitespace character. -/
theorem c8_trimmed_summary (env : SummaryEnv) (q : String)
    (hq : env.userQuery = some q) (hq0 : q ≠ "")
    (he : env.embeddingData.error = none) (hm : env.searchMatches ≠ [])
    (hc : env.chatData.error = none) :
    Effect.openDoc (summaryDoc q (jsTrim env.chatData.content)
        (contextContent env.searchMatches)) "markdown"
      ∈ (generateSummary env).1 ∧
    (∃ pre post : List Char,
      env.chatData.content.data
        = pre ++ (jsTrim env.chatData.content).data ++ post ∧
      pre.all isJsWhitespace = true ∧ post.all isJsWhitespace = true) ∧
    (∀ c, (jsTrim env.chatData.content).data.head? = some c →
      isJsWhitespace c = false) ∧
    (∀ c, (jsTrim env.chatData.content).data.getLast? = some c →
      isJsWhitespace c = false) := by
  refine ⟨?_, jsTrim_decomposition env.chatData.content,
    fun c hc2 => jsTrim_head _ c hc2, fun c hc2 => jsTrim_getLast _ c hc2⟩
  obtain ⟨a, t, hL⟩ := List.exists_cons_of_ne_nil hm
  rw [generateSummary_eq env q hq hq0, summaryFlow_ok env q a t he hL hc]
  simp

/-- C8, witness: the theorem applied to the successful run. -/
theorem c8_witness :
    envOk.chatData.error = none ∧
    Effect.openDoc (summaryDoc "explain auth" (jsTrim "  summary text  ")
        (contextContent [mA])) "markdown" ∈ (generateSummary envOk).1 ∧
    (∃ pre post : List Char,
      ("  summary text  ").data
        = pre ++ (jsTrim "  summary text  ").data ++ post ∧
      pre.all isJsWhitespace = true ∧ post.all isJsWhitespace = true) := by
  have h := c8_trimmed_summary envOk "explain auth" rfl (by decide) rfl
    (by decide) rfl
  exact ⟨rfl, h.1, h.2.1⟩

/-- C9: activate registers only the analyzeCodebase and generateSummary
commands, so the askCodebase command invoked for every webview query
message is unregistered; the handler therefore performs no effect at all
(in particular no embedding, search or completion request) and posts the
status message followed by an error message. -/
theorem c9_ask_command_unregistered (env : HostEnv) (mk : String → String)
    (q : String) :
    "extension.askCodebase" ∉ registeredCommands ∧
    (handleMessage env mk (.query q)).1 = [] ∧
    (handleMessage env mk (.query q)).2 =
      [.status "Generating response...",
       .error (commandNotFound "extension.askCodebase")] := by
  refine ⟨by decide, ?_, ?_⟩ <;> simp [handleMessage, executeCommand]

/-- C10: generateSummary resolves with none (undefined) in every
environment; consequently for every summarize message the webview handler
posts its not-generated error, even in a run in which summary generation
succeeded (the same trace contains the opened summary document); the
command also prompts with an input box and ignores the query argument the
handler passes. -/
theorem c10_summary_never_returned (env : HostEnv) (mk : String → String)
    (q : String) (hq : env.summaryEnv.userQuery = some q) (hq0 : q ≠ "")
    (he : env.summaryEnv.embeddingData.error = none)
    (hm : env.summaryEnv.searchMatches ≠ [])
    (hc : env.summaryEnv.chatData.error = none) :
    (∀ e : SummaryEnv, (generateSummary e).2 = none) ∧
    (∀ (e : HostEnv) (mk2 : String → String),
      (handleMessage e mk2 .summarize).2 =
        [.status "Generating summary...",
         .error "No summary generated. Make sure to analyze the codebase first."]) ∧
    Effect.openDoc (summaryDoc q (jsTrim env.summaryEnv.chatData.content)
        (contextContent env.summaryEnv.searchMatches)) "markdown"
      ∈ (handleMessage env mk .summarize).1 ∧
    Effect.showInputBox ∈ (handleMessage env mk .summarize).1 ∧
    (∀ (e : HostEnv) (a b : Option String),
      executeCommand e "extension.generateSummary" a
        = executeCommand e "extension.generateSummary" b) := by
  have heff : (handleMessage env mk .summarize).1
      = (generateSummary env.summaryEnv).1 := by
    simp [handleMessage, executeCommand]
  obtain ⟨a, t, hL⟩ := List.exists_cons_of_ne_nil hm
  refine ⟨?_, ?_, ?_, ?_, fun e a b => rfl⟩
  · intro e
    rcases hu : e.userQuery with _ | q2
    · rw [generateSummary_none e hu]
    · by_cases h2 : q2 = ""
      · rw [generateSummary_empty e q2 hu h2]
      · rw [generateSummary_eq e q2 hu h2]
  · intro e mk2
    simp [handleMessage, executeCommand]
  · rw [heff, generateSummary_eq env.summaryEnv q hq hq0,
      summaryFlow_ok env.summaryEnv q a t he hL hc]
    simp
  · rw [heff, generateSummary_eq env.summaryEnv q hq hq0]
    simp

/-- C10, witness: the theorem applied to the fully successful host run. -/
theorem c10_witness :
    hostOk.summaryEnv.userQuery = some "explain auth" ∧
    (∀ e : SummaryEnv, (generateSummary e).2 = none) ∧
    (handleMessage hostOk (fun s => s) .summarize).2 =
      [.status "Generating summary...",
       .error "No summary generated. Make sure to analyze the codebase first."] ∧
    Effect.openDoc (summaryDoc "explain auth" (jsTrim "  summary text  ")
        (contextContent [mA])) "markdown"
      ∈ (handleMessage hostOk (fun s => s) .summarize).1 := by
  have h := c10_summary_never_returned hostOk (fun s => s) "explain auth"
    rfl (by decide) rfl (by decide) rfl
  exact ⟨rfl, h.1, h.2.1 hostOk (fun s => s), h.2.2.1⟩

end CodeAutomation
